import Mathlib

/-!
Verification of the elizabeth repository (a set of Flask microservices:
job-enricher, job-extractor, job-matcher, resume-parser) against its
natural-language specification.

The Python sources are shallowly embedded: pure logic becomes Lean
functions, exceptions become `Except`, Python dictionaries become
association lists preserving insertion order, and interactions with
external systems (OpenAI API, Supabase, HTTP fetches, OpenCV detectors)
become explicit oracle parameters so that every control-flow decision the
Python code takes on their results is reproduced faithfully.
-/

/-! ## JSON value model

Python dictionaries exchanged between the services and the LLM are modelled
as insertion-ordered association lists of string keys. -/

inductive JVal where
  | null
  | bool (b : Bool)
  | num (n : Int)
  | str (s : String)
  | arr (elems : List JVal)
  | obj (fields : List (String × JVal))

abbrev JDict := List (String × JVal)

/-- Python `d[k]` lookup: first binding of key `k`, if any. -/
def jget? : JDict → String → Option JVal
  | [], _ => none
  | (k', v) :: rest, k => if k' = k then some v else jget? rest k

/-- Python `k in d` membership test. -/
def jcontains (d : JDict) (k : String) : Bool :=
  (jget? d k).isSome

/-- Python `d.get(k, default)`. -/
def jgetD (d : JDict) (k : String) (default : JVal) : JVal :=
  (jget? d k).getD default

/-- Python `list(d.keys())`. -/
def jkeys (d : JDict) : List String :=
  d.map Prod.fst

/-- Python `d[k] = v`: update the existing binding in place, else append. -/
def jset : JDict → String → JVal → JDict
  | [], k, v => [(k, v)]
  | (k', v') :: rest, k, v =>
      if k' = k then (k, v) :: rest else (k', v') :: jset rest k v

/-- Python truthiness of a JSON value (`if not x`). -/
def py_falsy : JVal → Bool
  | .null => true
  | .bool b => !b
  | .num n => n == 0
  | .str s => s.isEmpty
  | .arr xs => xs.isEmpty
  | .obj fs => fs.isEmpty

/-- Python truthiness of an `Optional[str]` (`if not s`): `None` and `""`
are falsy. -/
def py_falsy_str : Option String → Bool
  | none => true
  | some s => s.isEmpty

/-- Python exceptions, separating `ValueError` (which the endpoints map to
4xx statuses) from every other exception class. -/
inductive PyErr where
  | valueError (msg : String)
  | otherError (msg : String)
deriving DecidableEq

/-- Whether an `Except PyErr` result is a raised `ValueError`. -/
def isValueError {α : Type} : Except PyErr α → Bool
  | .error (.valueError _) => true
  | _ => false

/-- Whether an `Except` result returned normally. -/
def exceptOk {ε α : Type} : Except ε α → Bool
  | .ok _ => true
  | .error _ => false

/-! ## job-enricher: `core/job_enricher/enrich_job_data.py`

`enrich_job_data` deep-copies its input, sends the copy through
`process_job_enrichment` (the OpenAI call, modelled as an oracle), and
checks that every key of the original dictionary is present in the reply
before returning it. -/

/-- The `for key in validated_job_data.keys(): if key not in enriched_job_data`
loop: first missing key of `keys` in `enriched`, if any. -/
def check_missing_key (keys : List String) (enriched : JDict) : Option String :=
  match keys with
  | [] => none
  | k :: rest =>
      if jcontains enriched k then check_missing_key rest enriched else some k

/-- Python `enrich_job_data(job_data)` from
`src/services/job-enricher/core/job_enricher/enrich_job_data.py`.
The `process_job_enrichment` model call is the oracle `model`; the
`isinstance(job_data, dict)` guard always passes in this typed embedding,
and `copy.deepcopy` is the identity on values (aliasing is treated
separately in the heap embedding below). -/
def enrich_job_data (model : JDict → Except PyErr JDict)
    (job_data : JDict) : Except PyErr JDict :=
  match model job_data with
  | .error e => .error e
  | .ok enriched_job_data =>
      if enriched_job_data.isEmpty then
        .error (.valueError "Failed to enrich job data - no data returned from model")
      else
        match check_missing_key (jkeys job_data) enriched_job_data with
        | some k => .error (.valueError ("Enriched data is missing required key: " ++ k))
        | none => .ok enriched_job_data

/-! Heap embedding of `enrich_job_data` for the aliasing claim (C10).

A heap is a list of dictionary objects addressed by index.  The model call
`process_job_enrichment` may mutate the one object it is handed, so it is
modelled as returning both the new content of its argument object and its
outcome.  `enrich_job_data` reads the caller's object, allocates a fresh
object holding a copy (`copy.deepcopy`), and hands the model the copy, so
every mutation the model performs lands on the copy's cell. -/

abbrev Heap := List JDict

def hget (h : Heap) (r : Nat) : JDict := h.getD r []

/-- Python `enrich_job_data` with the caller's dictionary living at heap address
`r`; returns the final heap together with the outcome. -/
def enrich_job_data_heap (modelFn : JDict → JDict × Except PyErr JDict)
    (h : Heap) (r : Nat) : Heap × Except PyErr JDict :=
  let validated_job_data := hget h r
  let copyAddr := h.length
  let h1 := h ++ [validated_job_data]
  let step := modelFn validated_job_data
  let h2 := h1.set copyAddr step.1
  match step.2 with
  | .error e => (h2, .error e)
  | .ok enriched_job_data =>
      if enriched_job_data.isEmpty then
        (h2, .error (.valueError "Failed to enrich job data - no data returned from model"))
      else
        match check_missing_key (jkeys validated_job_data) enriched_job_data with
        | some k => (h2, .error (.valueError ("Enriched data is missing required key: " ++ k)))
        | none => (h2, .ok enriched_job_data)

/-! ## job-extractor: `models/job_extractor/model.py`

`process_job_posting` builds the prompt, calls OpenAI, parses the reply with
`json.loads`, and returns the parsed dictionary.  It performs no validation
of the parsed reply.  The reply is modelled post-parse: `none` stands for a
`json.loads` failure (or API error), `some d` for a successfully parsed
dictionary. -/

/-- The keys of the JSON object structure demanded by `SYSTEM_PROMPT` in
`src/services/job-extractor/models/job_extractor/model.py`. -/
def jobExtractorRequiredKeys : List String :=
  ["id", "title", "summary", "department", "location", "jobType", "status",
   "postedAt", "salaryRange", "responsibilities", "qualifications", "perks",
   "benefitsData", "specialty", "organization", "country", "isRemote",
   "visaSponsorship", "fullTime", "partTime", "nightShift"]

/-- Python `process_job_posting` from
`src/services/job-extractor/models/job_extractor/model.py`: extract the
model reply, `json.loads` it, and return it as is (any exception is logged
and re-raised). -/
def process_job_posting (parsedReply : Option JDict) : Except PyErr JDict :=
  match parsedReply with
  | none => .error (.valueError "Error processing job posting with OpenAI: JSON decode failed")
  | some job_data => .ok job_data

/-! ## HTTP endpoint embeddings

A Flask response is modelled as a status code with a JSON body (for
`abort(code, description)` the body holds the description under `"error"`,
matching the shape the matcher endpoints build explicitly with `jsonify`).
Each handler also reports its side effects: the threads it spawned, or
whether it invoked its model-calling function. -/

structure HttpResponse where
  status : Nat
  body : JDict

/-- Targets handed to `threading.Thread(target=..., args=...)` by the
job-matcher endpoints. -/
inductive ThreadTarget where
  | matchJobToUsersAsync (job_id : JVal) (overwrite : JVal) (environment : Option String)
  | matchUserToJobsAsync (user_id : JVal) (overwrite : JVal) (environment : Option String)

structure SpawnedThread where
  target : ThreadTarget
  daemon : Bool

/-- The `X-Environment` header handling shared by both matcher endpoints:
lower-case it and keep it only when it names a known environment. -/
def parseEnv (header : String) : Option String :=
  let environment := header.toLower
  if environment = "development" ∨ environment = "staging" ∨ environment = "production" then
    some environment
  else
    none

/-- Python `match_job` (POST `/match`) from
`src/services/job-matcher/api/job_matcher/match.py`.  `body` is the result
of `request.get_json()` (`none` when no JSON body was decoded); `job_exists`
is the Supabase lookup oracle.  Returns the response and the list of
threads the handler spawned. -/
def match_job (job_exists : JVal → Option String → Bool)
    (body : Option JDict) (envHeader : String) :
    HttpResponse × List SpawnedThread :=
  match body with
  | none => (⟨400, [("error", .str "job_id is required")]⟩, [])
  | some data =>
      if data.isEmpty || !jcontains data "job_id" then
        (⟨400, [("error", .str "job_id is required")]⟩, [])
      else
        let job_id := jgetD data "job_id" .null
        let overwrite := jgetD data "overwrite_existing_matches" (.bool false)
        let environment := parseEnv envHeader
        if !job_exists job_id environment then
          (⟨404, [("error", .str "Job not found")]⟩, [])
        else
          (⟨202, [("status", .str "accepted"), ("job_id", job_id),
                  ("message", .str "Job matching process started successfully")]⟩,
           [⟨.matchJobToUsersAsync job_id overwrite environment, true⟩])

/-- Python `match_user` (POST `/match-user`) from
`src/services/job-matcher/api/job_matcher/match.py`. -/
def match_user (user_exists : JVal → Option String → Bool)
    (body : Option JDict) (envHeader : String) :
    HttpResponse × List SpawnedThread :=
  match body with
  | none => (⟨400, [("error", .str "user_id is required")]⟩, [])
  | some data =>
      if data.isEmpty || !jcontains data "user_id" then
        (⟨400, [("error", .str "user_id is required")]⟩, [])
      else
        let user_id := jgetD data "user_id" .null
        let overwrite := jgetD data "overwrite_existing_matches" (.bool false)
        let environment := parseEnv envHeader
        if !user_exists user_id environment then
          (⟨404, [("error", .str "User not found")]⟩, [])
        else
          (⟨202, [("status", .str "accepted"), ("user_id", user_id),
                  ("message", .str "User matching process started successfully")]⟩,
           [⟨.matchUserToJobsAsync user_id overwrite environment, true⟩])

/-- Character-list matching used to embed Python's `in` on strings. -/
def leadsWith : List Char → List Char → Bool
  | [], _ => true
  | _ :: _, [] => false
  | p :: ps, c :: cs => p == c && leadsWith ps cs

def hasSublist : List Char → List Char → Bool
  | pat, [] => pat.isEmpty
  | pat, c :: rest => leadsWith pat (c :: rest) || hasSublist pat rest

/-- Python `pat in s` on strings. -/
def strContains (s pat : String) : Bool :=
  hasSublist pat.toList s.toList

/-- Python `job_extractor_endpoint` (POST `/extract`) from
`src/services/job-extractor/api/job_extractor/extract.py`.  `extract` is
the `extract_job_data` call; the Bool of the result records whether it was
invoked. -/
def job_extractor_endpoint (extract : JVal → Except PyErr JDict)
    (body : Option JDict) : HttpResponse × Bool :=
  match body with
  | none => (⟨400, [("error", .str "Invalid JSON payload.")]⟩, false)
  | some request_data =>
      if request_data.isEmpty then
        (⟨400, [("error", .str "Invalid JSON payload.")]⟩, false)
      else
        match jget? request_data "job_url" with
        | none => (⟨400, [("error", .str "job_url parameter is required")]⟩, false)
        | some job_url =>
            if py_falsy job_url then
              (⟨400, [("error", .str "job_url parameter is required")]⟩, false)
            else
              match extract job_url with
              | .ok job_data => (⟨200, job_data⟩, true)
              | .error (.valueError msg) =>
                  if strContains msg "Access forbidden" then
                    (⟨403, [("error", .str "Unable to access this job posting. The website may be blocking automated access. Please try a different job posting URL or contact support if this persists.")]⟩, true)
                  else if strContains msg "Invalid URL format" then
                    (⟨400, [("error", .str "Please provide a valid URL starting with http:// or https://")]⟩, true)
                  else
                    (⟨400, [("error", .str msg)]⟩, true)
              | .error (.otherError msg) =>
                  (⟨500, [("error", .str ("An unexpected error occurred while processing the job posting: " ++ msg))]⟩, true)

/-- Python `job_extractor_file_endpoint` (POST `/extract-from-file`) from
`src/services/job-extractor/api/job_extractor/extract.py`.  The Supabase
download/extraction flow that runs after the payload validation succeeds is
abstracted into the `handleFile` continuation (it is not at issue in the
claims about this endpoint); the Bool records whether that flow was
reached. -/
def job_extractor_file_endpoint (hasSupabase : Bool)
    (handleFile : JVal → HttpResponse) (body : Option JDict) :
    HttpResponse × Bool :=
  if !hasSupabase then
    (⟨500, [("error", .str "File upload processing is not available. The server is missing required dependencies.")]⟩, false)
  else
    match body with
    | none => (⟨400, [("error", .str "Invalid JSON payload.")]⟩, false)
    | some request_data =>
        if request_data.isEmpty then
          (⟨400, [("error", .str "Invalid JSON payload.")]⟩, false)
        else
          match jget? request_data "file_path" with
          | none => (⟨400, [("error", .str "file_path parameter is required")]⟩, false)
          | some file_path =>
              if py_falsy file_path then
                (⟨400, [("error", .str "file_path parameter is required")]⟩, false)
              else
                (handleFile file_path, true)

/-! ## job-extractor HTTP session retry policy and `fetch_page`

`src/services/job-extractor/core/job_extractor/extract_job_data.py` mounts a
urllib3 `Retry` adapter on its `requests.Session` and, when the plain HTTP
fetch does not yield usable content, falls back to Selenium browser
emulation. -/

structure RetryPolicy where
  total : Nat
  backoff_factor : ℚ
  status_forcelist : List Nat

/-- Python `retry_strategy = Retry(total=3, backoff_factor=0.3,
status_forcelist=[500, 502, 503, 504])`. -/
def retry_strategy : RetryPolicy :=
  ⟨3, 3 / 10, [500, 502, 503, 504]⟩

/-- urllib3 `Retry` semantics for status-based retries: given the statuses
the server would answer on each successive attempt, the number of HTTP
attempts the session makes (the first attempt plus one retry per
forcelisted status while retries remain). -/
def attemptsMade (retriesLeft : Nat) (responses : List Nat) (forcelist : List Nat) : Nat :=
  match responses with
  | [] => 0
  | s :: rest =>
      if s ∈ forcelist then
        match retriesLeft with
        | 0 => 1
        | r + 1 => 1 + attemptsMade r rest forcelist
      else 1

/-- Number of HTTP attempts a `session.get` makes under `policy` when the
server answers the given status sequence. -/
def sessionGet (policy : RetryPolicy) (responses : List Nat) : Nat :=
  attemptsMade policy.total responses policy.status_forcelist

/-- Outcome of the initial `session.get(url, timeout=5)` (after the
adapter-level retries): a response with a status and body text, or a raised
exception. -/
inductive FetchOutcome where
  | response (status : Nat) (text : String)
  | raised

/-- Python `fetch_page(url)` from
`src/services/job-extractor/core/job_extractor/extract_job_data.py`:
try plain `requests` first and accept a 200 response longer than 1000
characters; otherwise fall back to browser emulation (`browser` is the
`driver.page_source` obtained, or the exception message raised, by the
Selenium block; the raise for short content sits inside the same `try`, so
it too surfaces as the wrapped `ValueError`). -/
def fetch_page (plain : FetchOutcome) (hasSelenium : Bool)
    (browser : Except String String) : Except PyErr String :=
  let tryBrowser : Except PyErr String :=
    if !hasSelenium then
      .error (.valueError "Failed to fetch content - browser emulation not available")
    else
      match browser with
      | .ok html_content =>
          if html_content.length < 500 then
            .error (.valueError "Browser emulation failed: Insufficient content received")
          else
            .ok html_content
      | .error e => .error (.valueError ("Browser emulation failed: " ++ e))
  match plain with
  | .response status text =>
      if status == 200 && decide (text.length > 1000) then .ok text else tryBrowser
  | .raised => tryBrowser

/-! ## shared circuit breaker: `src/shared/utils/circuit_breaker.py`

`CircuitBreaker` is a three-state machine (CLOSED / OPEN / HALF_OPEN) whose
transitions are guarded by a `threading.Lock`.  Wall-clock time
(`time.time()`) is passed in explicitly as `now`; each operation is modelled
as a function from breaker state to result and updated breaker state. -/

inductive CBState where
  | closed
  | opened
  | halfOpen
deriving DecidableEq

structure CircuitBreaker where
  failure_threshold : Nat
  recovery_timeout : ℚ
  failure_count : Nat
  last_failure_time : Option ℚ
  internalState : CBState

/-- Python `CircuitBreaker.__init__` with the given thresholds. -/
def CircuitBreaker.init (failure_threshold : Nat) (recovery_timeout : ℚ) :
    CircuitBreaker :=
  ⟨failure_threshold, recovery_timeout, 0, none, .closed⟩

/-- Python `_should_attempt_reset`: enough time passed since the last failure. -/
def CircuitBreaker.shouldAttemptReset (cb : CircuitBreaker) (now : ℚ) : Bool :=
  match cb.last_failure_time with
  | none => false
  | some t => decide (now - t ≥ cb.recovery_timeout)

/-- The `state` property: reading it moves an OPEN breaker whose recovery
timeout has elapsed to HALF_OPEN, and returns the (possibly updated)
state. -/
def CircuitBreaker.state (cb : CircuitBreaker) (now : ℚ) :
    CBState × CircuitBreaker :=
  if cb.internalState = .opened ∧ cb.shouldAttemptReset now then
    (.halfOpen, { cb with internalState := .halfOpen })
  else
    (cb.internalState, cb)

/-- Python `_on_success`: reset the failure count and close the breaker. -/
def CircuitBreaker.onSuccess (cb : CircuitBreaker) : CircuitBreaker :=
  { cb with failure_count := 0, internalState := .closed }

/-- Python `_on_failure`: bump the failure count, record the failure time, and trip
the breaker to OPEN once the threshold is reached. -/
def CircuitBreaker.onFailure (cb : CircuitBreaker) (now : ℚ) : CircuitBreaker :=
  let cb1 := { cb with failure_count := cb.failure_count + 1,
                       last_failure_time := some now }
  if cb1.failure_count ≥ cb1.failure_threshold then
    { cb1 with internalState := .opened }
  else
    cb1

/-- Behaviour of the wrapped function on this call: it either returns or
raises the breaker's `expected_exception`. -/
inductive CallOutcome where
  | funcSuccess
  | funcFailure
deriving DecidableEq

inductive CallResult where
  | breakerOpenErr
  | returned
  | raisedFuncError
deriving DecidableEq

structure CallTrace where
  result : CallResult
  invoked : Bool
  cb : CircuitBreaker

/-- Python `CircuitBreaker.call`: reading `is_open` goes through the `state`
property (whose OPEN→HALF_OPEN move persists); an OPEN breaker raises
`CircuitBreakerError` without invoking the function, otherwise the function
runs and the breaker records the outcome. -/
def CircuitBreaker.call (cb : CircuitBreaker) (now : ℚ) (func : CallOutcome) :
    CallTrace :=
  let read := cb.state now
  if read.1 = .opened then
    ⟨.breakerOpenErr, false, read.2⟩
  else
    match func with
    | .funcSuccess => ⟨.returned, true, read.2.onSuccess⟩
    | .funcFailure => ⟨.raisedFuncError, true, read.2.onFailure now⟩

/-- Runs `n` consecutive failing calls through the breaker, all at time `t`. -/
def applyFailures (cb : CircuitBreaker) (t : ℚ) : Nat → CircuitBreaker
  | 0 => cb
  | n + 1 => ((applyFailures cb t n).call t .funcFailure).cb

/-! ## job-extractor vision extraction:
`src/services/job-extractor/utils/files/vision_extractor.py`

`pdf_to_vision_chunks` renders each PDF page to PNG bytes (a page is
modelled by the byte list its `page.get_pixmap(dpi=DPI).tobytes("png")`
produces, or by the exception that rendering raises), base64-encodes it
into a data URL, and wraps it into a vision chunk dictionary. -/

/-- Python `MAX_PAGES = int(os.getenv("JOB_PAGES_LIMIT", 10))`. -/
def MAX_PAGES (jobPagesLimitEnv : Option Nat) : Nat :=
  jobPagesLimitEnv.getD 10

def base64Chars : List Char :=
  "ABCDEFGHIJKLMNOPQRSTUVWXYZabcdefghijklmnopqrstuvwxyz0123456789+/".toList

def b64CharAt (i : Nat) : Char :=
  base64Chars.getD i 'A'

/-- RFC 4648 base64 of a byte list (`base64.b64encode(...).decode()`). -/
def base64Encode : List Nat → String
  | [] => ""
  | [b1] =>
      String.mk [b64CharAt (b1 / 4), b64CharAt (b1 % 4 * 16)] ++ "=="
  | [b1, b2] =>
      String.mk [b64CharAt (b1 / 4), b64CharAt (b1 % 4 * 16 + b2 / 16),
                 b64CharAt (b2 % 16 * 4)] ++ "="
  | b1 :: b2 :: b3 :: rest =>
      String.mk [b64CharAt (b1 / 4), b64CharAt (b1 % 4 * 16 + b2 / 16),
                 b64CharAt (b2 % 16 * 4 + b3 / 64), b64CharAt (b3 % 64)] ++
        base64Encode rest

/-- The vision chunk built for one rendered page: a dictionary of type
`"image_url"` whose URL is the base64 PNG data URL. -/
def chunkOf (img_bytes : List Nat) : JDict :=
  [("type", .str "image_url"),
   ("image_url", .obj [("url", .str ("data:image/png;base64," ++ base64Encode img_bytes)),
                       ("detail", .str "auto")])]

/-- The `for i, page in enumerate(doc)` loop body of `pdf_to_vision_chunks`:
render up to `maxPages` pages in order; a page whose rendering raises aborts
the whole loop with that exception. -/
def renderPages (pages : List (Except String (List Nat))) (maxPages : Nat) :
    Except String (List JDict) :=
  match pages, maxPages with
  | _, 0 => .ok []
  | [], _ => .ok []
  | p :: rest, m + 1 =>
      match p with
      | .error e => .error e
      | .ok img_bytes =>
          match renderPages rest m with
          | .error e => .error e
          | .ok chunks => .ok (chunkOf img_bytes :: chunks)

/-- Python `pdf_to_vision_chunks(pdf_bytes, max_pages)` from
`src/services/job-extractor/utils/files/vision_extractor.py`.  `doc` is the
outcome of `fitz.open` (`none` when opening the PDF raises); every
exception inside the `try` is wrapped into a `ValueError`, including the
explicit raise when no chunk was produced. -/
def pdf_to_vision_chunks (hasPyMuPDF : Bool)
    (doc : Option (List (Except String (List Nat)))) (max_pages : Nat) :
    Except PyErr (List JDict) :=
  if !hasPyMuPDF then
    .error (.valueError "PyMuPDF is required for vision-based PDF processing")
  else
    match doc with
    | none => .error (.valueError "Error converting PDF to vision chunks: cannot open PDF")
    | some pages =>
        match renderPages pages max_pages with
        | .error e => .error (.valueError ("Error converting PDF to vision chunks: " ++ e))
        | .ok chunks =>
            if chunks.isEmpty then
              .error (.valueError "Error converting PDF to vision chunks: Could not render any PDF pages to images")
            else
              .ok chunks

/-! ## resume-parser headshot filter:
`src/services/resume-parser/core/user_profile/extract_profile_from_resume.py`

The OpenCV image decoded from the candidate base64 string is modelled by
its dimensions together with oracles for the library primitives that
inspect pixel data: the Haar-cascade detector (keyed by the `scaleFactor`
and `minNeighbors` it is called with), the fraction of skin-tone pixels of
a region, the normalized distance of a region's centre from the image
centre (the one float `sqrt` of the pipeline, kept abstract), and the
white-pixel and edge-pixel fractions of the whole image.  All scoring
arithmetic on top of these values is embedded exactly, over `ℚ`. -/

structure FaceRect where
  x : Nat
  y : Nat
  w : Nat
  h : Nat
deriving DecidableEq

structure CVImage where
  width : Nat
  height : Nat
  detect : ℚ → Nat → List FaceRect
  skinRatio : FaceRect → ℚ
  centerDist : FaceRect → ℚ
  whitePct : ℚ
  edgePct : ℚ

/-- Headshot filter constants from the source. -/
def maxPixelsLimit : Nat := 2200000

def minPixelsLimit : Nat := 5000

def aspectMin : ℚ := 66 / 100

def aspectMax : ℚ := 3 / 2

/-- Python `face_score = face_size_ratio * 0.7 + centering_score * 0.3` for one
detected face, with `centering_score = 1.0 - min(distance_from_center, 1.0)`. -/
def faceScore (img : CVImage) (f : FaceRect) : ℚ :=
  let face_size_ratio : ℚ := (f.w * f.h : ℚ) / (img.height * img.width : ℚ)
  let centering_score : ℚ := 1 - min (img.centerDist f) 1
  face_size_ratio * (7 / 10) + centering_score * (3 / 10)

/-- The inner `for (x, y, w, h) in faces` loop: keep the strictly best
scoring face. -/
def bestFaceOver (img : CVImage) (faces : List FaceRect)
    (best : ℚ × Option FaceRect) : ℚ × Option FaceRect :=
  match faces with
  | [] => best
  | f :: rest =>
      let s := faceScore img f
      if s > best.1 then bestFaceOver img rest (s, some f)
      else bestFaceOver img rest best

/-- The `for scale_factor in [1.1, 1.2, 1.3]: for min_neighbors in [3, 5]`
parameter sweep, in source order. -/
def scanParams : List (ℚ × Nat) :=
  [(11 / 10, 3), (11 / 10, 5), (6 / 5, 3), (6 / 5, 5), (13 / 10, 3), (13 / 10, 5)]

/-- The best face (and its score) across the whole parameter sweep, starting
from `best_face_score = 0`, `best_face = None`. -/
def bestFace (img : CVImage) : ℚ × Option FaceRect :=
  scanParams.foldl (fun best p => bestFaceOver img (img.detect p.1 p.2) best) (0, none)

/-- Python `_contains_face(b64_str)`: `True` without inspection when OpenCV is
unavailable; `False` when `cv2.imdecode` returns `None`; otherwise accept
only a best face of score at least 0.15 whose region is at least 30%
skin-toned. -/
def contains_face (hasCV2 : Bool) (decoded : Option CVImage) : Bool :=
  if !hasCV2 then true
  else
    match decoded with
    | none => false
    | some img =>
        match bestFace img with
        | (best_face_score, some best) =>
            if best_face_score < 3 / 20 then false
            else if img.skinRatio best < 3 / 10 then false
            else true
        | (_, none) => false

/-- Python `_get_face_area_ratio(img)`: the largest detected face's area over the
image area (detection with `scaleFactor=1.1`, `minNeighbors=5`); 0.0 when
nothing is detected or OpenCV is unavailable. -/
def get_face_area_ratio (hasCV2 : Bool) (img : CVImage) : ℚ :=
  if !hasCV2 then 0
  else
    match (img.detect (11 / 10) 5).argmax (fun f => (f.w * f.h : ℚ)) with
    | none => 0
    | some f => (f.w * f.h : ℚ) / (img.height * img.width : ℚ)

/-- Python `_looks_like_document_screenshot(b64)`: a mostly white, edge-heavy image
is a screenshot, as is one whose largest face is small relative to the
image.  When OpenCV failed to import, the references to `np` raise and the
handler returns `False`; an undecodable image also yields `False`. -/
def looks_like_document_screenshot (hasCV2 : Bool) (decoded : Option CVImage) :
    Bool :=
  if !hasCV2 then false
  else
    match decoded with
    | none => false
    | some img =>
        if img.whitePct > 7 / 10 ∧ img.edgePct > 1 / 10 then true
        else if get_face_area_ratio hasCV2 img < 3 / 20 then true
        else false

/-- A candidate base64 string as seen by the headshot filter: Python
emptiness of the string, the `PIL.Image.open` result (`none` when it
raises), and the `cv2.imdecode` result used by the face and screenshot
checks (`none` when it returns `None`). -/
structure B64Input where
  isEmptyStr : Bool
  pilSize : Option (Nat × Nat)
  cvImage : Option CVImage

/-- Python `_looks_like_headshot(b64)`: size, aspect-ratio, face and screenshot
filters, in source order; any decode failure yields `False`. -/
def looks_like_headshot (hasCV2 : Bool) (b : B64Input) : Bool :=
  if b.isEmptyStr then false
  else
    match b.pilSize with
    | none => false
    | some wh =>
        let pixel_count := wh.1 * wh.2
        if pixel_count < minPixelsLimit then false
        else if pixel_count > maxPixelsLimit then false
        else
          let aspect : ℚ := if wh.2 ≠ 0 then (wh.1 : ℚ) / (wh.2 : ℚ) else 1
          if ¬(aspectMin ≤ aspect ∧ aspect ≤ aspectMax) then false
          else if !contains_face hasCV2 b.cvImage then false
          else if looks_like_document_screenshot hasCV2 b.cvImage then false
          else true

/-! ## job-matcher healthcare matching:
`src/services/job-matcher/models/job_matcher/healthcare_matching.py`

`compute_healthcare_match_score(resume_text, job_description, client=None)`
returns `None` on falsy inputs, otherwise obtains a client
(`client or create_openai_client()` — the creation raises `ValueError`
when `OPENAI_API_KEY` is unset and happens OUTSIDE the `try`), then inside
a `try` calls the LLM, parses the reply, stamps `type_of_match = "fit"`
and returns it; every exception inside the `try` yields `None`. -/

/-- Python `create_openai_client` from
`src/services/job-matcher/utils/openai/client.py`: raises `ValueError`
when `OPENAI_API_KEY` is unset. -/
def create_openai_client (apiKeySet : Bool) : Except PyErr Unit :=
  if !apiKeySet then .error (.valueError "OPENAI_API_KEY must be set")
  else .ok ()

/-- Result of `compute_healthcare_match_score` together with whether the
LLM (`client.chat.completions.create`) was actually called. -/
structure MatchScoreTrace where
  result : Except PyErr (Option JDict)
  llmCalled : Bool

/-- The body of the `try` block: call the LLM (`llmContent` is the reply
content, or the exception the call raised), `json.loads` it (`jsonParse`,
`none` when parsing raises), and stamp `type_of_match`.  A reply that
parses to a non-dictionary makes the item assignment raise `TypeError`,
also caught by the bare `except`. -/
def healthcareTryBlock (llmContent : Except String String)
    (jsonParse : String → Option JVal) : Except PyErr (Option JDict) :=
  match llmContent with
  | .error _ => .ok none
  | .ok content =>
      match jsonParse content with
      | some (.obj result) => .ok (some (jset result "type_of_match" (.str "fit")))
      | _ => .ok none

/-- Python `compute_healthcare_match_score` from
`src/services/job-matcher/models/job_matcher/healthcare_matching.py`. -/
def compute_healthcare_match_score (resume_text job_description : Option String)
    (client : Option Unit) (apiKeySet : Bool)
    (llmContent : Except String String) (jsonParse : String → Option JVal) :
    MatchScoreTrace :=
  if py_falsy_str resume_text || py_falsy_str job_description then
    ⟨.ok none, false⟩
  else
    match client with
    | some _ => ⟨healthcareTryBlock llmContent jsonParse, true⟩
    | none =>
        match create_openai_client apiKeySet with
        | .error e => ⟨.error e, false⟩
        | .ok _ => ⟨healthcareTryBlock llmContent jsonParse, true⟩

/-! Observation helpers used to state properties of the headshot filter
without existential quantifiers. -/

/-- Pixel count of the `PIL.Image.open` result (0 when it failed). -/
def pilPixelCount : Option (Nat × Nat) → Nat
  | none => 0
  | some wh => wh.1 * wh.2

/-- Aspect ratio `w / h if h else 1` of the `PIL.Image.open` result. -/
def pilAspect : Option (Nat × Nat) → ℚ
  | none => 1
  | some wh => if wh.2 ≠ 0 then (wh.1 : ℚ) / (wh.2 : ℚ) else 1

/-- Whether the parameter sweep found any face at all. -/
def cvBestFaceFound : Option CVImage → Bool
  | none => false
  | some img => (bestFace img).2.isSome

/-- The best face score the parameter sweep produced (0 when none). -/
def cvBestScore : Option CVImage → ℚ
  | none => 0
  | some img => (bestFace img).1

/-- The skin-tone fraction of the best face's region (0 when none). -/
def cvBestSkin : Option CVImage → ℚ
  | none => 0
  | some img =>
      match (bestFace img).2 with
      | some f => img.skinRatio f
      | none => 0

/-! ## Helper lemmas -/

theorem check_missing_key_none_sound (keys : List String) (d : JDict)
    (h : check_missing_key keys d = none) :
    ∀ k ∈ keys, jcontains d k = true := by
  induction keys with
  | nil => intro k hk; cases hk
  | cons a rest ih =>
      intro k hk
      unfold check_missing_key at h
      by_cases hc : jcontains d a = true
      · rw [if_pos hc] at h
        cases hk with
        | head => exact hc
        | tail _ hk' => exact ih h k hk'
      · rw [if_neg hc] at h
        cases h

theorem jget_eq_none_of_not_contains (d : JDict) (k : String)
    (h : jcontains d k = false) : jget? d k = none := by
  unfold jcontains at h
  cases hg : jget? d k with
  | none => rfl
  | some v => rw [hg] at h; cases h

/-! ## Claim C1 -/

/-- C1, counterexample: `process_job_posting` does not check required keys of
the parsed model JSON before returning it.  On a parsed reply that contains
none of the keys required by its own `SYSTEM_PROMPT` (here a dictionary with
the single key `"foo"`), it returns the dictionary unchanged even though the
required key `"title"` is absent. -/
theorem C1_counterexample :
    process_job_posting (some [("foo", JVal.num 1)]) = .ok [("foo", JVal.num 1)]
    ∧ "title" ∈ jobExtractorRequiredKeys
    ∧ jcontains [("foo", JVal.num 1)] "title" = false :=
  ⟨rfl, by decide, by decide⟩

/-- C1 (amended): `enrich_job_data` validates required keys — whenever it
returns a dictionary, that dictionary contains every key of `job_data` —
but `process_job_posting` performs no key validation and returns the parsed
model JSON as is. -/
theorem C1_theorem :
    (∀ (model : JDict → Except PyErr JDict) (job_data d : JDict),
        enrich_job_data model job_data = .ok d →
        ∀ k ∈ jkeys job_data, jcontains d k = true)
    ∧ (∀ d : JDict, process_job_posting (some d) = .ok d) := by
  constructor
  · intro model job_data d h k hk
    unfold enrich_job_data at h
    cases hm : model job_data with
    | error e => rw [hm] at h; cases h
    | ok enriched =>
        rw [hm] at h
        dsimp only at h
        by_cases he : enriched.isEmpty = true
        · rw [if_pos he] at h; cases h
        · rw [if_neg he] at h
          cases hc : check_missing_key (jkeys job_data) enriched with
          | some k' => rw [hc] at h; cases h
          | none =>
              rw [hc] at h
              injection h with h
              subst h
              exact check_missing_key_none_sound _ _ hc k hk
  · intro d; rfl

/-- C1 witness: instantiating the amended theorem at a model that returns
`{"title": null, "summary": "s"}` for the input `{"title": null}`. -/
theorem C1_witness :
    jcontains [("title", JVal.null), ("summary", JVal.str "s")] "title" = true :=
  C1_theorem.1 (fun _ => .ok [("title", JVal.null), ("summary", JVal.str "s")])
    [("title", JVal.null)] [("title", JVal.null), ("summary", JVal.str "s")] rfl
    "title" (by simp [jkeys])

/-! ## Claim C2 -/

/-- C2: each endpoint answers HTTP 400 without delegating to its
model-calling function whenever the JSON body is absent (or decodes to the
falsy empty dictionary) or lacks the endpoint's required key: `"job_id"`
for POST `/match`, `"user_id"` for POST `/match-user`, `"job_url"` for
POST `/extract`, `"file_path"` for POST `/extract-from-file` (the file
endpoint with its Supabase utilities importable, its normal
configuration). -/
theorem C2_theorem :
    (∀ (je : JVal → Option String → Bool) (env : String),
        match_job je none env = (⟨400, [("error", .str "job_id is required")]⟩, []))
    ∧ (∀ (je : JVal → Option String → Bool) (env : String) (data : JDict),
        jcontains data "job_id" = false →
        match_job je (some data) env = (⟨400, [("error", .str "job_id is required")]⟩, []))
    ∧ (∀ (ue : JVal → Option String → Bool) (env : String),
        match_user ue none env = (⟨400, [("error", .str "user_id is required")]⟩, []))
    ∧ (∀ (ue : JVal → Option String → Bool) (env : String) (data : JDict),
        jcontains data "user_id" = false →
        match_user ue (some data) env = (⟨400, [("error", .str "user_id is required")]⟩, []))
    ∧ (∀ ex : JVal → Except PyErr JDict,
        job_extractor_endpoint ex none = (⟨400, [("error", .str "Invalid JSON payload.")]⟩, false))
    ∧ (∀ (ex : JVal → Except PyErr JDict) (data : JDict),
        jcontains data "job_url" = false →
        (job_extractor_endpoint ex (some data)).1.status = 400
        ∧ (job_extractor_endpoint ex (some data)).2 = false)
    ∧ (∀ hf : JVal → HttpResponse,
        job_extractor_file_endpoint true hf none
          = (⟨400, [("error", .str "Invalid JSON payload.")]⟩, false))
    ∧ (∀ (hf : JVal → HttpResponse) (data : JDict),
        jcontains data "file_path" = false →
        (job_extractor_file_endpoint true hf (some data)).1.status = 400
        ∧ (job_extractor_file_endpoint true hf (some data)).2 = false) := by
  refine ⟨fun je env => rfl, ?_, fun ue env => rfl, ?_, fun ex => rfl, ?_, fun hf => rfl, ?_⟩
  · intro je env data h
    simp [match_job, h]
  · intro ue env data h
    simp [match_user, h]
  · intro ex data h
    have hg := jget_eq_none_of_not_contains data "job_url" h
    by_cases he : data.isEmpty = true <;>
      simp [job_extractor_endpoint, hg, he]
  · intro hf data h
    have hg := jget_eq_none_of_not_contains data "file_path" h
    by_cases he : data.isEmpty = true <;>
      simp [job_extractor_file_endpoint, hg, he]

/-- C2 witness: the validation failures at concrete requests — a `/match`
body without `"job_id"` and an `/extract` body without `"job_url"`. -/
theorem C2_witness :
    match_job (fun _ _ => true) (some [("x", JVal.null)]) ""
      = (⟨400, [("error", JVal.str "job_id is required")]⟩, [])
    ∧ (job_extractor_endpoint (fun _ => .ok []) (some [("x", JVal.null)])).1.status = 400 :=
  ⟨C2_theorem.2.1 (fun _ _ => true) "" [("x", JVal.null)] (by decide),
   (C2_theorem.2.2.2.2.2.1 (fun _ => .ok []) [("x", JVal.null)] (by decide)).1⟩

/-! ## Claim C3 -/

/-- C3: on a valid matching request (JSON body carrying the required id for
a job/user the Supabase lookup confirms), each matcher endpoint spawns
exactly one daemon thread whose target is the asynchronous matching
function and immediately answers HTTP 202 with status `"accepted"`; the
response is built before the thread runs and carries only the id and a
fixed message — no result of the matching computation. -/
theorem C3_theorem
    (job_exists user_exists : JVal → Option String → Bool)
    (data dataU : JDict) (envHeader : String) (jid uid : JVal)
    (hne : data.isEmpty = false) (hjid : jget? data "job_id" = some jid)
    (hje : job_exists jid (parseEnv envHeader) = true)
    (hneU : dataU.isEmpty = false) (huid : jget? dataU "user_id" = some uid)
    (hue : user_exists uid (parseEnv envHeader) = true) :
    match_job job_exists (some data) envHeader =
      (⟨202, [("status", .str "accepted"), ("job_id", jid),
              ("message", .str "Job matching process started successfully")]⟩,
       [⟨.matchJobToUsersAsync jid
           (jgetD data "overwrite_existing_matches" (.bool false))
           (parseEnv envHeader), true⟩])
    ∧ (match_job job_exists (some data) envHeader).2.length = 1
    ∧ (∀ th ∈ (match_job job_exists (some data) envHeader).2, th.daemon = true)
    ∧ match_user user_exists (some dataU) envHeader =
      (⟨202, [("status", .str "accepted"), ("user_id", uid),
              ("message", .str "User matching process started successfully")]⟩,
       [⟨.matchUserToJobsAsync uid
           (jgetD dataU "overwrite_existing_matches" (.bool false))
           (parseEnv envHeader), true⟩])
    ∧ (match_user user_exists (some dataU) envHeader).2.length = 1
    ∧ (∀ th ∈ (match_user user_exists (some dataU) envHeader).2, th.daemon = true) := by
  have hcj : jcontains data "job_id" = true := by
    unfold jcontains; rw [hjid]; rfl
  have hcu : jcontains dataU "user_id" = true := by
    unfold jcontains; rw [huid]; rfl
  have hj : match_job job_exists (some data) envHeader =
      (⟨202, [("status", .str "accepted"), ("job_id", jid),
              ("message", .str "Job matching process started successfully")]⟩,
       [⟨.matchJobToUsersAsync jid
           (jgetD data "overwrite_existing_matches" (.bool false))
           (parseEnv envHeader), true⟩]) := by
    simp [match_job, hne, hcj, jgetD, hjid, hje]
  have hu : match_user user_exists (some dataU) envHeader =
      (⟨202, [("status", .str "accepted"), ("user_id", uid),
              ("message", .str "User matching process started successfully")]⟩,
       [⟨.matchUserToJobsAsync uid
           (jgetD dataU "overwrite_existing_matches" (.bool false))
           (parseEnv envHeader), true⟩]) := by
    simp [match_user, hneU, hcu, jgetD, huid, hue]
  refine ⟨hj, ?_, ?_, hu, ?_, ?_⟩
  · rw [hj]; rfl
  · rw [hj]; intro th hth; simp at hth; rw [hth]
  · rw [hu]; rfl
  · rw [hu]; intro th hth; simp at hth; rw [hth]


/-- C3 witness: a concrete `/match` request whose job exists spawns one
daemon thread and answers 202/accepted. -/
theorem C3_witness :
    match_job (fun _ _ => true) (some [("job_id", JVal.str "j1")]) "" =
      (⟨202, [("status", JVal.str "accepted"), ("job_id", JVal.str "j1"),
              ("message", JVal.str "Job matching process started successfully")]⟩,
       [⟨.matchJobToUsersAsync (JVal.str "j1")
           (jgetD [("job_id", JVal.str "j1")] "overwrite_existing_matches" (.bool false))
           (parseEnv ""), true⟩]) :=
  (C3_theorem (fun _ _ => true) (fun _ _ => true)
    [("job_id", JVal.str "j1")] [("user_id", JVal.str "u1")] ""
    (JVal.str "j1") (JVal.str "u1")
    rfl (by simp [jget?]) rfl rfl (by simp [jget?]) rfl).1

/-! ## Claim C4 -/

theorem attemptsMade_le (responses : List Nat) :
    ∀ (retriesLeft : Nat) (forcelist : List Nat),
      attemptsMade retriesLeft responses forcelist ≤ retriesLeft + 1 := by
  induction responses with
  | nil => intro r fl; simp [attemptsMade]
  | cons s rest ih =>
      intro r fl
      unfold attemptsMade
      by_cases hs : s ∈ fl
      · rw [if_pos hs]
        cases r with
        | zero => simp
        | succ r' =>
            have := ih r' fl
            show 1 + attemptsMade r' rest fl ≤ r' + 1 + 1
            omega
      · rw [if_neg hs]
        omega

/-- C4, counterexample: a retry policy does exist.  The job-extractor's
HTTP session mounts `Retry(total=3, backoff_factor=0.3,
status_forcelist=[500, 502, 503, 504])`, so a request whose first answer is
503 is attempted again — more than the single attempt the claim allows. -/
theorem C4_counterexample :
    retry_strategy.total = 3
    ∧ sessionGet retry_strategy [503, 200] = 2
    ∧ 1 < sessionGet retry_strategy [503, 200] := by
  refine ⟨rfl, by decide, by decide⟩

/-- C4 (amended): endpoint-level error handling is try/except-log-status,
but the job-extractor's outbound HTTP session does carry recovery
semantics: a urllib3 retry policy (up to 3 retries, backoff factor 0.3, on
statuses 500/502/503/504, hence at most 4 attempts per request), and
`fetch_page` falls back from the plain HTTP fetch to browser emulation
when the former fails. -/
theorem C4_theorem :
    retry_strategy.total = 3
    ∧ retry_strategy.backoff_factor = 3 / 10
    ∧ retry_strategy.status_forcelist = [500, 502, 503, 504]
    ∧ (∀ responses, sessionGet retry_strategy responses ≤ 4)
    ∧ sessionGet retry_strategy [503, 503, 503, 503, 200] = 4
    ∧ fetch_page .raised true (.ok (String.mk (List.replicate 600 'x')))
        = .ok (String.mk (List.replicate 600 'x')) := by
  refine ⟨rfl, rfl, rfl, ?_, by decide, ?_⟩
  · intro responses
    exact attemptsMade_le responses 3 [500, 502, 503, 504]
  · have hlen : (String.mk (List.replicate 600 'x')).length = 600 :=
      List.length_replicate 600 'x'
    simp only [fetch_page, hlen]
    norm_num

/-! ## Claim C5 -/

/-- C5, counterexample: `src/shared/utils/circuit_breaker.py` IS a custom
synchronization/fault-tolerance primitive — a lock-guarded three-state
machine.  Driving a default breaker (threshold 5, recovery timeout 60s)
through 5 failing calls at t=100 trips it to OPEN; a call at t=110 is then
rejected without the wrapped function being invoked, and reading the state
at t=170 moves the machine to its third state, HALF_OPEN — behaviour no
plain pass-through wrapper exhibits. -/
theorem C5_counterexample :
    (applyFailures (CircuitBreaker.init 5 60) 100 5).internalState = CBState.opened
    ∧ ((applyFailures (CircuitBreaker.init 5 60) 100 5).call 110 .funcSuccess).invoked = false
    ∧ ((applyFailures (CircuitBreaker.init 5 60) 100 5).call 110 .funcSuccess).result
        = CallResult.breakerOpenErr
    ∧ ((applyFailures (CircuitBreaker.init 5 60) 100 5).state 170).1 = CBState.halfOpen := by
  have h5 : applyFailures (CircuitBreaker.init 5 60) 100 5 =
      ⟨5, 60, 5, some 100, .opened⟩ := by
    simp [applyFailures, CircuitBreaker.init, CircuitBreaker.call,
          CircuitBreaker.state, CircuitBreaker.onFailure,
          CircuitBreaker.shouldAttemptReset]
  rw [h5]
  refine ⟨rfl, ?_, ?_, ?_⟩
  · simp [CircuitBreaker.call, CircuitBreaker.state,
          CircuitBreaker.shouldAttemptReset]
    norm_num
  · simp [CircuitBreaker.call, CircuitBreaker.state,
          CircuitBreaker.shouldAttemptReset]
    norm_num
  · simp [CircuitBreaker.state, CircuitBreaker.shouldAttemptReset]
    norm_num

/-- C5 (amended): apart from `shared/utils/circuit_breaker.py` — an unused
but present custom fault-tolerance primitive implementing a
CLOSED/OPEN/HALF_OPEN circuit-breaker state machine whose transitions are
guarded by a `threading.Lock` — the services contain no custom concurrency
logic.  The theorem exhibits the machine's gating behaviour: from a fresh
default breaker, `failure_threshold` consecutive failures at any time `t`
drive it to OPEN, and a call 30 seconds later (before the 60-second
recovery timeout) is refused without invoking the wrapped function. -/
theorem C5_theorem (t : ℚ) :
    (applyFailures (CircuitBreaker.init 5 60) t 5).internalState = CBState.opened
    ∧ (applyFailures (CircuitBreaker.init 5 60) t 5).failure_count = 5
    ∧ ((applyFailures (CircuitBreaker.init 5 60) t 5).call (t + 30) .funcSuccess).invoked = false
    ∧ ((applyFailures (CircuitBreaker.init 5 60) t 5).call (t + 30) .funcSuccess).result
        = CallResult.breakerOpenErr := by
  have h5 : applyFailures (CircuitBreaker.init 5 60) t 5 =
      ⟨5, 60, 5, some t, .opened⟩ := by
    simp [applyFailures, CircuitBreaker.init, CircuitBreaker.call,
          CircuitBreaker.state, CircuitBreaker.onFailure,
          CircuitBreaker.shouldAttemptReset]
  have hsar : (⟨5, 60, 5, some t, .opened⟩ : CircuitBreaker).shouldAttemptReset (t + 30)
      = false := by
    simp only [CircuitBreaker.shouldAttemptReset, decide_eq_false_iff_not, not_le]
    linarith
  have hcall : (⟨5, 60, 5, some t, .opened⟩ : CircuitBreaker).call (t + 30) .funcSuccess
      = ⟨.breakerOpenErr, false, ⟨5, 60, 5, some t, .opened⟩⟩ := by
    simp [CircuitBreaker.call, CircuitBreaker.state, hsar]
  rw [h5]
  exact ⟨rfl, rfl, by rw [hcall], by rw [hcall]⟩

/-! ## Claim C6 -/

theorem renderPages_map_ok (imgs : List (List Nat)) :
    ∀ m, renderPages (imgs.map Except.ok) m = .ok ((imgs.take m).map chunkOf) := by
  induction imgs with
  | nil => intro m; cases m <;> rfl
  | cons a rest ih =>
      intro m
      cases m with
      | zero => rfl
      | succ m' => simp [renderPages, ih m']

/-- C6: on a PDF whose pages all render, `pdf_to_vision_chunks` returns one
vision chunk per rendered page, in page order, capped at `max_pages`
(`MAX_PAGES` defaults to 10); each chunk is a dictionary of type
`"image_url"` whose URL is the base64-encoded PNG data URL of the rendered
page; and it raises `ValueError` both when the document has no pages and
when a page fails to render. -/
theorem C6_theorem (imgs : List (List Nat)) (max_pages : Nat)
    (hne : imgs ≠ []) (hmp : 0 < max_pages) :
    pdf_to_vision_chunks true (some (imgs.map Except.ok)) max_pages
        = .ok ((imgs.take max_pages).map chunkOf)
    ∧ ((imgs.take max_pages).map chunkOf).length = min imgs.length max_pages
    ∧ ((imgs.take max_pages).map chunkOf).length ≤ max_pages
    ∧ (∀ img, jget? (chunkOf img) "type" = some (.str "image_url")
        ∧ jget? (chunkOf img) "image_url"
            = some (.obj [("url", .str ("data:image/png;base64," ++ base64Encode img)),
                          ("detail", .str "auto")]))
    ∧ MAX_PAGES none = 10
    ∧ (∀ mp, pdf_to_vision_chunks true (some []) mp
          = .error (.valueError "Error converting PDF to vision chunks: Could not render any PDF pages to images"))
    ∧ (∀ (e : String) (rest : List (Except String (List Nat))) (mp : Nat), 0 < mp →
        isValueError (pdf_to_vision_chunks true (some (Except.error e :: rest)) mp) = true) := by
  have hALL : renderPages (imgs.map Except.ok) max_pages
      = .ok ((imgs.take max_pages).map chunkOf) := renderPages_map_ok imgs max_pages
  have hempty : ((imgs.take max_pages).map chunkOf).isEmpty = false := by
    cases imgs with
    | nil => exact absurd rfl hne
    | cons a rest =>
        cases max_pages with
        | zero => exact absurd hmp (by omega)
        | succ m => simp [List.take]
  refine ⟨?_, ?_, ?_, ?_, rfl, ?_, ?_⟩
  · simp [pdf_to_vision_chunks, hALL, hempty]
    exact ⟨by omega, hne⟩
  · simp [List.length_take]
    exact Nat.min_comm _ _
  · simp [List.length_take]
  · intro img
    constructor
    · rfl
    · rfl
  · intro mp
    cases mp <;> rfl
  · intro e rest mp hmp'
    cases mp with
    | zero => exact absurd hmp' (by omega)
    | succ m => rfl

/-- C6 witness: a one-page document at the default page cap. -/
theorem C6_witness :
    pdf_to_vision_chunks true (some ([[0]].map Except.ok)) 10
      = .ok (([[0]].take 10).map chunkOf) :=
  (C6_theorem [[0]] 10 (by simp) (by norm_num)).1

/-! ## Claim C7 -/

/-- C7: with OpenCV available (the service's normal configuration — the
repo ships `check_opencv.py` to assert it), `_looks_like_headshot` returns
`True` only if every filter passes in order: the image decodes, its pixel
count lies in [5000, 2200000], its aspect ratio lies in [0.66, 1.5], the
sweep detects a face whose combined size-and-centering score is at least
0.15 and whose region is at least 30% skin-toned, and the image is not
classified as a document screenshot; an empty or undecodable input yields
`False`. -/
theorem C7_theorem (b : B64Input) :
    (looks_like_headshot true b = true →
      b.isEmptyStr = false
      ∧ b.pilSize.isSome = true
      ∧ minPixelsLimit ≤ pilPixelCount b.pilSize
      ∧ pilPixelCount b.pilSize ≤ maxPixelsLimit
      ∧ aspectMin ≤ pilAspect b.pilSize
      ∧ pilAspect b.pilSize ≤ aspectMax
      ∧ b.cvImage.isSome = true
      ∧ cvBestFaceFound b.cvImage = true
      ∧ 3 / 20 ≤ cvBestScore b.cvImage
      ∧ 3 / 10 ≤ cvBestSkin b.cvImage
      ∧ looks_like_document_screenshot true b.cvImage = false)
    ∧ (∀ p c, looks_like_headshot true ⟨true, p, c⟩ = false)
    ∧ (∀ e c, looks_like_headshot true ⟨e, none, c⟩ = false) := by
  obtain ⟨be, bp, bc⟩ := b
  refine ⟨?_, fun p c => rfl, fun e c => by cases e <;> rfl⟩
  intro h
  cases be with
  | true => exact Bool.noConfusion h
  | false =>
  cases bp with
  | none => exact Bool.noConfusion h
  | some wh =>
  simp only [looks_like_headshot] at h
  rw [show (wh.1 * wh.2) = pilPixelCount (some wh) from rfl] at h
  rw [show (if wh.2 ≠ 0 then (wh.1 : ℚ) / (wh.2 : ℚ) else 1) = pilAspect (some wh) from rfl] at h
  rw [if_neg (by simp : ¬(false = true))] at h
  by_cases h1 : pilPixelCount (some wh) < minPixelsLimit
  · rw [if_pos h1] at h; exact Bool.noConfusion h
  rw [if_neg h1] at h
  by_cases h2 : pilPixelCount (some wh) > maxPixelsLimit
  · rw [if_pos h2] at h; exact Bool.noConfusion h
  rw [if_neg h2] at h
  by_cases h3 : ¬(aspectMin ≤ pilAspect (some wh) ∧ pilAspect (some wh) ≤ aspectMax)
  · rw [if_pos h3] at h; exact Bool.noConfusion h
  rw [if_neg h3] at h
  rw [not_not] at h3
  by_cases h4 : (!contains_face true bc) = true
  · rw [if_pos h4] at h; exact Bool.noConfusion h
  rw [if_neg h4] at h
  have h4' : contains_face true bc = true := by
    cases hcf : contains_face true bc
    · rw [hcf] at h4; simp at h4
    · rfl
  by_cases h5 : looks_like_document_screenshot true bc = true
  · rw [if_pos h5] at h; exact Bool.noConfusion h
  have h5' : looks_like_document_screenshot true bc = false :=
    Bool.eq_false_iff.mpr (fun hx => h5 hx)
  cases bc with
  | none => exact absurd h4' (by simp [contains_face])
  | some img =>
  rcases hbf : bestFace img with ⟨s, fo⟩
  cases fo with
  | none =>
      simp only [contains_face, Bool.not_true, hbf] at h4'
      exact Bool.noConfusion h4'
  | some f =>
  simp only [contains_face, Bool.not_true, hbf] at h4'
  by_cases hs : s < 3 / 20
  · rw [if_pos hs] at h4'; exact Bool.noConfusion h4'
  rw [if_neg hs] at h4'
  by_cases hskin : img.skinRatio f < 3 / 10
  · rw [if_pos hskin] at h4'; exact Bool.noConfusion h4'
  refine ⟨rfl, rfl, Nat.le_of_not_lt h1, Nat.le_of_not_lt h2, h3.1, h3.2, rfl, ?_, ?_, ?_, h5'⟩
  · simp only [cvBestFaceFound, hbf]; rfl
  · simp only [cvBestScore, hbf]; exact le_of_not_lt hs
  · simp only [cvBestSkin, hbf]; exact le_of_not_lt hskin

/-- C7 witness: a 100x100 image with a centred 50x50 fully skin-toned face
passes the filter; the theorem's consequences are instantiated there. -/
theorem C7_witness :
    (⟨false, some (100, 100),
       some ⟨100, 100, fun _ _ => [⟨25, 25, 50, 50⟩], fun _ => 1, fun _ => 0, 0, 0⟩⟩ :
      B64Input).isEmptyStr = false :=
  ((C7_theorem
      ⟨false, some (100, 100),
       some ⟨100, 100, fun _ _ => [⟨25, 25, 50, 50⟩], fun _ => 1, fun _ => 0, 0, 0⟩⟩).1
    (by norm_num [looks_like_headshot, contains_face, bestFace, scanParams,
                  bestFaceOver, faceScore, looks_like_document_screenshot,
                  get_face_area_ratio, minPixelsLimit, maxPixelsLimit,
                  aspectMin, aspectMax])).1

/-! ## Claim C8 -/

theorem healthcareTryBlock_ok_eq (content : String) (p : String → Option JVal) :
    healthcareTryBlock (.ok content) p =
      match p content with
      | some (.obj result) => .ok (some (jset result "type_of_match" (.str "fit")))
      | _ => .ok none := rfl

theorem healthcareTryBlock_ok (llmContent : Except String String)
    (jsonParse : String → Option JVal) :
    exceptOk (healthcareTryBlock llmContent jsonParse) = true := by
  cases llmContent with
  | error e => rfl
  | ok content =>
      cases hj : jsonParse content with
      | none => rw [healthcareTryBlock_ok_eq, hj]; rfl
      | some v =>
          rw [healthcareTryBlock_ok_eq, hj]
          cases v <;> rfl

/-- C8, counterexample: `compute_healthcare_match_score` CAN raise.  With
non-empty inputs, no `client` argument, and `OPENAI_API_KEY` unset, the
`client or create_openai_client()` line sits outside the `try` block and
its `ValueError` propagates instead of returning `None`. -/
theorem C8_counterexample :
    compute_healthcare_match_score (some "resume text") (some "job description")
        none false (.ok "") (fun _ => none)
      = ⟨.error (.valueError "OPENAI_API_KEY must be set"), false⟩
    ∧ exceptOk (compute_healthcare_match_score (some "resume text")
        (some "job description") none false (.ok "") (fun _ => none)).result = false :=
  ⟨rfl, rfl⟩

/-- C8 (amended): whenever a client is supplied or client creation succeeds
(`OPENAI_API_KEY` set), `compute_healthcare_match_score` never raises: it
returns `None` without calling the LLM when `resume_text` or
`job_description` is empty or `None`, returns `None` when the LLM call or
the JSON parsing fails (or the reply is not a JSON object), and on success
returns the parsed dictionary with `"type_of_match"` set to `"fit"`.  With
no client and no API key, the `ValueError` from client creation
propagates. -/
theorem C8_theorem :
    (∀ (rt jd : Option String) (cl : Option Unit) (ak : Bool)
        (llm : Except String String) (parse : String → Option JVal),
        (py_falsy_str rt || py_falsy_str jd) = true →
        compute_healthcare_match_score rt jd cl ak llm parse = ⟨.ok none, false⟩)
    ∧ (∀ (rt jd : Option String) (cl : Option Unit) (ak : Bool)
        (llm : Except String String) (parse : String → Option JVal),
        cl = some () ∨ ak = true →
        exceptOk (compute_healthcare_match_score rt jd cl ak llm parse).result = true)
    ∧ (∀ (rt jd : Option String) (cl : Option Unit) (ak : Bool) (err : String)
        (parse : String → Option JVal),
        py_falsy_str rt = false → py_falsy_str jd = false →
        cl = some () ∨ ak = true →
        compute_healthcare_match_score rt jd cl ak (.error err) parse = ⟨.ok none, true⟩)
    ∧ (∀ (rt jd : Option String) (cl : Option Unit) (ak : Bool) (content : String)
        (parse : String → Option JVal),
        py_falsy_str rt = false → py_falsy_str jd = false →
        cl = some () ∨ ak = true → parse content = none →
        compute_healthcare_match_score rt jd cl ak (.ok content) parse = ⟨.ok none, true⟩)
    ∧ (∀ (rt jd : Option String) (cl : Option Unit) (ak : Bool) (content : String)
        (parse : String → Option JVal) (result : JDict),
        py_falsy_str rt = false → py_falsy_str jd = false →
        cl = some () ∨ ak = true → parse content = some (.obj result) →
        compute_healthcare_match_score rt jd cl ak (.ok content) parse
          = ⟨.ok (some (jset result "type_of_match" (.str "fit"))), true⟩) := by
  have hclient : ∀ (rt jd : Option String) (cl : Option Unit) (ak : Bool)
      (llm : Except String String) (parse : String → Option JVal),
      py_falsy_str rt = false → py_falsy_str jd = false →
      cl = some () ∨ ak = true →
      compute_healthcare_match_score rt jd cl ak llm parse
        = ⟨healthcareTryBlock llm parse, true⟩ := by
    intro rt jd cl ak llm parse hrt hjd hcl
    unfold compute_healthcare_match_score
    rw [hrt, hjd]
    cases hc : cl with
    | some u => rfl
    | none =>
        cases hcl with
        | inl hl => rw [hc] at hl; cases hl
        | inr hr => rw [hr]; rfl
  refine ⟨?_, ?_, ?_, ?_, ?_⟩
  · intro rt jd cl ak llm parse hfal
    unfold compute_healthcare_match_score
    rw [hfal]
    rfl
  · intro rt jd cl ak llm parse hcl
    by_cases hrt : py_falsy_str rt = true
    · unfold compute_healthcare_match_score
      rw [hrt]
      rfl
    · by_cases hjd : py_falsy_str jd = true
      · unfold compute_healthcare_match_score
        rw [Bool.not_eq_true] at hrt
        rw [hrt, hjd]
        rfl
      · rw [Bool.not_eq_true] at hrt hjd
        rw [hclient rt jd cl ak llm parse hrt hjd hcl]
        exact healthcareTryBlock_ok llm parse
  · intro rt jd cl ak err parse hrt hjd hcl
    rw [hclient rt jd cl ak (.error err) parse hrt hjd hcl]
    rfl
  · intro rt jd cl ak content parse hrt hjd hcl hparse
    rw [hclient rt jd cl ak (.ok content) parse hrt hjd hcl,
        healthcareTryBlock_ok_eq, hparse]
  · intro rt jd cl ak content parse result hrt hjd hcl hparse
    rw [hclient rt jd cl ak (.ok content) parse hrt hjd hcl,
        healthcareTryBlock_ok_eq, hparse]

/-- C8 witness: a successful run at concrete inputs — nonempty texts, a
supplied client, and a reply parsing to an object — yields the dictionary
stamped with `type_of_match = "fit"`. -/
theorem C8_witness :
    compute_healthcare_match_score (some "r") (some "j") (some ()) false
        (.ok "reply") (fun _ => some (.obj [("overall_match_percentage", .str "80")]))
      = ⟨.ok (some (jset [("overall_match_percentage", JVal.str "80")]
           "type_of_match" (.str "fit"))), true⟩ :=
  C8_theorem.2.2.2.2 (some "r") (some "j") (some ()) false "reply"
    (fun _ => some (.obj [("overall_match_percentage", .str "80")]))
    [("overall_match_percentage", JVal.str "80")]
    rfl rfl (Or.inl rfl) rfl

/-! ## Claim C9 -/

/-- C9: while a breaker is OPEN and fewer than `recovery_timeout` seconds
have elapsed since the recorded last failure, `call` raises
`CircuitBreakerError` and never invokes the wrapped function; once at
least `recovery_timeout` seconds have elapsed, reading the `state`
property moves the breaker to HALF_OPEN and the next call invokes the
function. -/
theorem C9_theorem (cb : CircuitBreaker) (now t : ℚ) (f : CallOutcome)
    (hst : cb.internalState = .opened) (hlf : cb.last_failure_time = some t) :
    (now - t < cb.recovery_timeout →
       (cb.call now f).result = .breakerOpenErr ∧ (cb.call now f).invoked = false)
    ∧ (cb.recovery_timeout ≤ now - t →
       (cb.state now).1 = .halfOpen ∧ (cb.call now f).invoked = true) := by
  constructor
  · intro hlt
    have hsar : cb.shouldAttemptReset now = false := by
      simp only [CircuitBreaker.shouldAttemptReset, hlf, decide_eq_false_iff_not, not_le]
      exact hlt
    constructor <;>
      simp [CircuitBreaker.call, CircuitBreaker.state, hst, hsar]
  · intro hge
    have hsar : cb.shouldAttemptReset now = true := by
      simp only [CircuitBreaker.shouldAttemptReset, hlf, decide_eq_true_eq]
      exact hge
    have hstate : cb.state now = (.halfOpen, { cb with internalState := .halfOpen }) := by
      unfold CircuitBreaker.state
      rw [if_pos ⟨hst, hsar⟩]
    constructor
    · rw [hstate]
    · unfold CircuitBreaker.call
      rw [hstate]
      cases f <;> rfl

/-- C9 witness: a breaker opened at t=100 with a 60-second timeout refuses
a call at t=110 without invoking the function. -/
theorem C9_witness :
    ((⟨5, 60, 5, some 100, .opened⟩ : CircuitBreaker).call 110 .funcSuccess).result
        = CallResult.breakerOpenErr
    ∧ ((⟨5, 60, 5, some 100, .opened⟩ : CircuitBreaker).call 110 .funcSuccess).invoked
        = false :=
  (C9_theorem ⟨5, 60, 5, some 100, .opened⟩ 110 100 .funcSuccess rfl rfl).1 (by norm_num)

/-! ## Claim C10 -/

theorem set_append_singleton (h : Heap) (v w : JDict) :
    (h ++ [v]).set h.length w = h ++ [w] := by
  induction h with
  | nil => rfl
  | cons a rest ih => simp [List.set, ih]

theorem hget_append_lt (h : Heap) (w : JDict) (r : Nat) (hr : r < h.length) :
    hget (h ++ [w]) r = hget h r := by
  unfold hget
  induction h generalizing r with
  | nil => cases hr
  | cons a rest ih =>
      cases r with
      | zero => rfl
      | succ r' =>
          simp only [List.cons_append, List.getD, List.get?]
          exact ih r' (by simpa using hr)

/-- C10: `enrich_job_data` never mutates its caller's dictionary: it deep
copies the input into a fresh object and hands the model the copy, so even
a model call that mutates the object it receives arbitrarily leaves the
caller's heap cell unchanged, whether the call returns or raises. -/
theorem C10_theorem (modelFn : JDict → JDict × Except PyErr JDict)
    (h : Heap) (r : Nat) (hr : r < h.length) :
    hget (enrich_job_data_heap modelFn h r).1 r = hget h r := by
  have hfst : (enrich_job_data_heap modelFn h r).1
      = (h ++ [hget h r]).set h.length (modelFn (hget h r)).1 := by
    simp only [enrich_job_data_heap]
    cases hs : (modelFn (hget h r)).2 with
    | error e => rfl
    | ok enriched =>
        dsimp only
        split
        · rfl
        · split <;> rfl
  rw [hfst, set_append_singleton]
  exact hget_append_lt h (modelFn (hget h r)).1 r hr

/-- C10 witness: a model that wipes the object it is handed still leaves
the caller's dictionary intact. -/
theorem C10_witness :
    hget (enrich_job_data_heap (fun d => ([], .ok d)) [[("a", JVal.null)]] 0).1 0
      = hget [[("a", JVal.null)]] 0 :=
  C10_theorem (fun d => ([], .ok d)) [[("a", JVal.null)]] 0 (by norm_num)
